import Mathlib

/-!
Shallow embedding of the WellnessHub backend (Express server, in-memory stores).
Each definition is translated from the JavaScript source: validation helpers,
the auth middleware, and the route handlers for login, register, appointments,
contact, newsletter and admin stats. Machine strings are Lean strings restricted
to the ASCII behaviour of the JS primitives involved (toLowerCase, trim, length).
-/

namespace WellnessHub

/-- JS `s.toLowerCase()` on the ASCII range: lowercases each character.
Mirrors the source calls `email.toLowerCase()`. -/
def toLowerCase (s : String) : String := ⟨s.data.map Char.toLower⟩

/-- Split a character list at every occurrence of `sep`; the JS semantics of
`str.split(sep)` for a one-character separator (the empty string yields one
empty part). -/
def splitOnChar (sep : Char) : List Char → List (List Char)
  | [] => [[]]
  | c :: cs =>
    if c = sep then [] :: splitOnChar sep cs
    else
      match splitOnChar sep cs with
      | [] => [[c]]
      | h :: t => (c :: h) :: t

/-- JS `s.split(sep)` for a one-character separator. -/
def jsSplit (sep : Char) (s : String) : List String :=
  (splitOnChar sep s.data).map (fun l => ⟨l⟩)

/-- JS `s.trim()` on the ASCII range: strip leading and trailing whitespace. -/
def jsTrim (s : String) : String :=
  ⟨(((s.data.dropWhile Char.isWhitespace).reverse.dropWhile
      Char.isWhitespace).reverse)⟩

/-- JS truthiness of an optional string field of `req.body`: `undefined`,
`null` and the empty string are falsy. -/
def truthy (o : Option String) : Bool :=
  match o with
  | none => false
  | some s => s != ""

/-- The character class `[^\s@]` of the email regex: no whitespace, no `@`. -/
def emailChunkOk (s : String) : Bool :=
  s.data.all (fun c => !c.isWhitespace && c != '@')

/-- After the `@`, the regex `[^\s@]+\.[^\s@]+` demands a dot that is neither
the first nor the last character of the domain part. -/
def hasInnerDot (s : String) : Bool :=
  ((s.data.drop 1).dropLast).contains '.'

/-- Source: `const validateEmail = (email) => /^[^\s@]+@[^\s@]+\.[^\s@]+$/.test(email);`
The three character classes all exclude `@`, so a match has exactly one `@`;
the part before it is a nonempty `[^\s@]+`, and the part after it splits as
`[^\s@]+ . [^\s@]+`, i.e. it has an inner dot. -/
def validateEmail (email : String) : Bool :=
  match jsSplit '@' email with
  | [lpart, dpart] =>
      lpart != "" && emailChunkOk lpart && dpart != "" && emailChunkOk dpart &&
        hasInnerDot dpart
  | _ => false

/-- Source: `const validatePassword = (password) => password && password.length >= 6;` -/
def validatePassword (p : String) : Bool :=
  p != "" && decide (6 ≤ p.length)

/-- The bcrypt dependency, abstracted: a one-way hash and its verifier. -/
structure Hasher where
  hash : String → String
  compare : String → String → Bool

/-- A user record as pushed by `/api/auth/register` (and the startup test user,
which carries no `createdAt`). -/
structure User where
  id : Nat
  email : String
  password : String
  createdAt : Option Nat
deriving DecidableEq, Repr

/-- An appointment record as pushed by `/api/appointments`. -/
structure Appointment where
  id : Nat
  firstName : String
  lastName : String
  email : String
  phone : String
  service : String
  date : String
  time : String
  message : String
  createdAt : Nat
deriving DecidableEq, Repr

/-- A contact record as pushed by `/api/contact`. -/
structure Contact where
  id : Nat
  name : String
  email : String
  message : String
  createdAt : Nat
deriving DecidableEq, Repr

/-- A newsletter record as pushed by `/api/newsletter`: note there is no id. -/
structure Newsletter where
  email : String
  subscribedAt : Nat
deriving DecidableEq, Repr

/-- The four in-memory arrays of the server. -/
structure State where
  users : List User
  appointments : List Appointment
  contacts : List Contact
  newsletters : List Newsletter
deriving DecidableEq, Repr

/-- The signed token issued by login: `jwt.sign({userId}, secret, 24h)`. -/
structure Token where
  userId : Nat
  expiresAt : Nat
deriving DecidableEq, Repr

/-- JSON response bodies produced by the routes. -/
inductive RespBody where
  | error (msg : String)
  | message (msg : String)
  | loginOk (token : Token) (userId : Nat) (email : String) (msg : String)
  | stats (users appointments contacts newsletters : Nat)
      (recentAppointments : List Appointment) (recentContacts : List Contact)
deriving DecidableEq, Repr

/-- An HTTP response: status code plus JSON body (res.json defaults to 200). -/
structure Resp where
  status : Nat
  body : RespBody
deriving DecidableEq, Repr

/-- Startup state: `createTestUser` pushes the test account before any request. -/
def initialState (hasher : Hasher) : State :=
  { users := [⟨1, "test@wellnesshub.com", hasher.hash "password123", none⟩]
    appointments := []
    contacts := []
    newsletters := [] }

/-- The empty-store state, for concrete evaluations. -/
def emptyState : State := ⟨[], [], [], []⟩

/-- POST /api/auth/login. `now` is Date.now() at handling time (the token
expiry is now + 24h in milliseconds). -/
def loginHandler (hasher : Hasher) (now : Nat) (s : State)
    (email password : Option String) : Resp × State :=
  if !(truthy email && truthy password) then
    (⟨400, .error "Email and password are required"⟩, s)
  else
    let e := email.getD ""
    let p := password.getD ""
    if !validateEmail e then (⟨400, .error "Invalid email format"⟩, s)
    else
      match s.users.find? (fun u => u.email == toLowerCase e) with
      | none => (⟨401, .error "Invalid credentials"⟩, s)
      | some u =>
        if !hasher.compare p u.password then
          (⟨401, .error "Invalid credentials"⟩, s)
        else
          (⟨200, .loginOk ⟨u.id, now + 86400000⟩ u.id u.email "Login successful"⟩, s)

/-- POST /api/auth/register. `now` is Date.now(), used both as the id and as
the createdAt timestamp of the new user. -/
def registerHandler (hasher : Hasher) (now : Nat) (s : State)
    (email password : Option String) : Resp × State :=
  if !(truthy email && truthy password) then
    (⟨400, .error "Email and password are required"⟩, s)
  else
    let e := email.getD ""
    let p := password.getD ""
    if !validateEmail e then (⟨400, .error "Invalid email format"⟩, s)
    else if !validatePassword p then
      (⟨400, .error "Password must be at least 6 characters"⟩, s)
    else
      let normalizedEmail := toLowerCase e
      if (s.users.find? (fun u => u.email == normalizedEmail)).isSome then
        (⟨400, .error "User already exists"⟩, s)
      else
        let user : User := ⟨now, normalizedEmail, hasher.hash p, some now⟩
        (⟨200, .message "User registered successfully"⟩,
          { s with users := s.users ++ [user] })

/-- Body of POST /api/appointments. -/
structure ApptReq where
  firstName : Option String
  lastName : Option String
  email : Option String
  phone : Option String
  service : Option String
  date : Option String
  time : Option String
  message : Option String
deriving DecidableEq, Repr

/-- Body of POST /api/contact. -/
structure ContactReq where
  name : Option String
  email : Option String
  message : Option String
deriving DecidableEq, Repr

/-- Outcome of the notification step: no transporter configured (log only),
sendMail resolved, or sendMail threw inside the try block. -/
inductive MailOutcome where
  | noTransporter
  | sent
  | threw
deriving DecidableEq, Repr

/-- Source check `!firstName || !lastName || !email || !phone || !service || !date || !time`. -/
def requiredApptPresent (r : ApptReq) : Bool :=
  truthy r.firstName && truthy r.lastName && truthy r.email && truthy r.phone &&
    truthy r.service && truthy r.date && truthy r.time

/-- POST /api/appointments. The record is pushed before the notification step;
a sendMail throw is caught by the surrounding try and yields a 500 response,
with the record already in the store. `message: message || two-quotes` stores
the empty string for an absent or empty message. -/
def appointmentsHandler (mail : MailOutcome) (now : Nat) (s : State)
    (r : ApptReq) : Resp × State :=
  if !requiredApptPresent r then
    (⟨400, .error "All required fields must be filled"⟩, s)
  else
    let e := r.email.getD ""
    if !validateEmail e then (⟨400, .error "Invalid email format"⟩, s)
    else
      let appointment : Appointment :=
        ⟨now, r.firstName.getD "", r.lastName.getD "", toLowerCase e,
          r.phone.getD "", r.service.getD "", r.date.getD "", r.time.getD "",
          r.message.getD "", now⟩
      let s' := { s with appointments := s.appointments ++ [appointment] }
      match mail with
      | .threw => (⟨500, .error "Failed to book appointment"⟩, s')
      | _ =>
        (⟨200, .message "Appointment booked successfully! Check your email for confirmation."⟩, s')

/-- POST /api/contact. Same notification structure as appointments. -/
def contactHandler (mail : MailOutcome) (now : Nat) (s : State)
    (r : ContactReq) : Resp × State :=
  if !(truthy r.name && truthy r.email && truthy r.message) then
    (⟨400, .error "All fields are required"⟩, s)
  else
    let e := r.email.getD ""
    if !validateEmail e then (⟨400, .error "Invalid email format"⟩, s)
    else
      let contact : Contact :=
        ⟨now, jsTrim (r.name.getD ""), toLowerCase e, jsTrim (r.message.getD ""), now⟩
      let s' := { s with contacts := s.contacts ++ [contact] }
      match mail with
      | .threw => (⟨500, .error "Failed to send message"⟩, s')
      | _ =>
        (⟨200, .message "Message sent successfully! We\x27ll get back to you soon."⟩, s')

/-- POST /api/newsletter. Duplicate check on the lowercased email; the pushed
record has only email and subscribedAt. -/
def newsletterHandler (now : Nat) (s : State) (email : Option String) :
    Resp × State :=
  if !truthy email then (⟨400, .error "Email is required"⟩, s)
  else
    let e := email.getD ""
    if !validateEmail e then (⟨400, .error "Invalid email format"⟩, s)
    else
      let normalizedEmail := toLowerCase e
      if (s.newsletters.find? (fun n => n.email == normalizedEmail)).isSome then
        (⟨400, .error "Email already subscribed"⟩, s)
      else
        (⟨200, .message "Successfully subscribed to our newsletter!"⟩,
          { s with newsletters := s.newsletters ++ [⟨normalizedEmail, now⟩] })

/-- JS `array.slice(-n)`: the last `n` elements (whole array when shorter). -/
def sliceLast (n : Nat) (l : List α) : List α := l.drop (l.length - n)

/-- GET /api/admin/stats handler body (after the auth middleware): counts and
the last five appointments and contacts; reads only, no mutation. -/
def adminStatsHandler (s : State) : Resp × State :=
  (⟨200, .stats s.users.length s.appointments.length s.contacts.length
      s.newsletters.length (sliceLast 5 s.appointments) (sliceLast 5 s.contacts)⟩,
    s)

/-- The distinct failure causes jwt.verify can report; the middleware callback
collapses them all into one truthy `err`. -/
inductive JwtError where
  | malformed
  | badSignature
  | expired
deriving DecidableEq, Repr

/-- Middleware outcome: an early JSON error response, or `next()` with
`req.user` set. -/
inductive AuthOutcome where
  | denied (status : Nat) (error : String)
  | allowed (userId : Nat)
deriving DecidableEq, Repr

/-- Source: `const token = authHeader && authHeader.split(' ')[1]` followed by
the falsy check. A missing header, an empty header, a header with no second
space-separated part, or an empty second part all leave no token. -/
def extractToken (authHeader : Option String) : Option String :=
  match authHeader with
  | none => none
  | some h =>
    if h == "" then none
    else
      match (jsSplit ' ' h)[1]? with
      | none => none
      | some t => if t == "" then none else some t

/-- The `authenticateToken` middleware, with jwt.verify abstracted as a
function reporting which check failed. No token gives 401; any verify error
gives 403 with the single message `Invalid token`. -/
def authenticateToken (verify : String → Except JwtError Nat)
    (authHeader : Option String) : AuthOutcome :=
  match extractToken authHeader with
  | none => .denied 401 "Access token required"
  | some t =>
    match verify t with
    | .error _ => .denied 403 "Invalid token"
    | .ok userId => .allowed userId

/-- One client request, carrying the ambient inputs of its handler
(Date.now() value, notification outcome, body fields). -/
inductive Request where
  | login (now : Nat) (email password : Option String)
  | register (now : Nat) (email password : Option String)
  | appointment (mail : MailOutcome) (now : Nat) (r : ApptReq)
  | contact (mail : MailOutcome) (now : Nat) (r : ContactReq)
  | newsletter (now : Nat) (email : Option String)
  | adminStats
deriving Repr

/-- Dispatch one request to its handler. -/
def step (hasher : Hasher) (s : State) (req : Request) : Resp × State :=
  match req with
  | .login now e p => loginHandler hasher now s e p
  | .register now e p => registerHandler hasher now s e p
  | .appointment mail now r => appointmentsHandler mail now s r
  | .contact mail now r => contactHandler mail now s r
  | .newsletter now e => newsletterHandler now s e
  | .adminStats => adminStatsHandler s

/-- Run a sequence of requests from a state, keeping only the store state. -/
def run (hasher : Hasher) (s : State) (reqs : List Request) : State :=
  reqs.foldl (fun s r => (step hasher s r).2) s

/-- A string is lowercase when lowercasing it changes nothing. -/
def isLowerStr (s : String) : Bool := toLowerCase s == s

/-- Every stored email field, in all four stores, is lowercase. -/
def emailsLower (s : State) : Bool :=
  s.users.all (fun u => isLowerStr u.email) &&
    s.appointments.all (fun a => isLowerStr a.email) &&
    s.contacts.all (fun c => isLowerStr c.email) &&
    s.newsletters.all (fun n => isLowerStr n.email)

/-- A concrete hasher for evaluating the model on concrete inputs: an
injective tagging hash with matching comparison. -/
def refHasher : Hasher :=
  { hash := fun p => "hashed:" ++ p
    compare := fun p h => ("hashed:" ++ p) == h }

/-- A request body passes appointment validation: all seven required fields
truthy and the email well formed. -/
def apptValid (r : ApptReq) : Bool :=
  requiredApptPresent r && validateEmail (r.email.getD "")

/-- A request body passes contact validation. -/
def contactValid (r : ContactReq) : Bool :=
  (truthy r.name && truthy r.email && truthy r.message) &&
    validateEmail (r.email.getD "")

theorem char_toNat_ofNat_valid (n : Nat) (h : n < 55296) :
    (Char.ofNat n).toNat = n := by
  rw [Char.ofNat, dif_pos (Or.inl h)]
  rfl

theorem char_toLower_idem (c : Char) : c.toLower.toLower = c.toLower := by
  have key : ∀ d : Char, ¬(65 ≤ d.toNat ∧ d.toNat ≤ 90) → d.toLower = d := by
    intro d hd
    unfold Char.toLower
    rw [if_neg hd]
  by_cases h : 65 ≤ c.toNat ∧ c.toNat ≤ 90
  · apply key
    have h2 : (c.toLower).toNat = c.toNat + 32 := by
      unfold Char.toLower
      rw [if_pos h, char_toNat_ofNat_valid _ (by omega)]
    rw [h2]
    omega
  · rw [key c h, key c h]

theorem toLowerCase_idem (s : String) :
    toLowerCase (toLowerCase s) = toLowerCase s := by
  unfold toLowerCase
  apply congrArg
  rw [List.map_map]
  apply List.map_congr_left
  intro a _
  exact char_toLower_idem a

theorem isLowerStr_toLowerCase (s : String) :
    isLowerStr (toLowerCase s) = true := by
  simp [isLowerStr, toLowerCase_idem]

theorem registerHandler_state (hasher : Hasher) (now : Nat) (s : State)
    (e p : Option String) :
    (registerHandler hasher now s e p).2 = s ∨
      (registerHandler hasher now s e p).1.body =
        .message "User registered successfully" := by
  simp only [registerHandler]
  split
  · exact Or.inl rfl
  split
  · exact Or.inl rfl
  split
  · exact Or.inl rfl
  split
  · exact Or.inl rfl
  · exact Or.inr rfl

theorem newsletterHandler_state (now : Nat) (s : State) (e : Option String) :
    (newsletterHandler now s e).2 = s ∨
      (newsletterHandler now s e).1.body =
        .message "Successfully subscribed to our newsletter!" := by
  simp only [newsletterHandler]
  split
  · exact Or.inl rfl
  split
  · exact Or.inl rfl
  split
  · exact Or.inl rfl
  · exact Or.inr rfl

theorem emailsLower_initial (hasher : Hasher) :
    emailsLower (initialState hasher) = true := by
  simp [initialState, emailsLower]
  decide

theorem emailsLower_step (hasher : Hasher) (s : State) (req : Request)
    (h : emailsLower s = true) : emailsLower (step hasher s req).2 = true := by
  simp only [emailsLower, Bool.and_eq_true] at h
  obtain ⟨⟨⟨hu, ha⟩, hc⟩, hn⟩ := h
  cases req with
  | login now e p =>
    simp only [step, loginHandler]
    split
    · simp [emailsLower, hu, ha, hc, hn]
    split
    · simp [emailsLower, hu, ha, hc, hn]
    split
    · simp [emailsLower, hu, ha, hc, hn]
    split
    · simp [emailsLower, hu, ha, hc, hn]
    · simp [emailsLower, hu, ha, hc, hn]
  | register now e p =>
    simp only [step, registerHandler]
    split
    · simp [emailsLower, hu, ha, hc, hn]
    split
    · simp [emailsLower, hu, ha, hc, hn]
    split
    · simp [emailsLower, hu, ha, hc, hn]
    split
    · simp [emailsLower, hu, ha, hc, hn]
    · simp [emailsLower, hu, ha, hc, hn, isLowerStr_toLowerCase]
  | appointment mail now r =>
    simp only [step, appointmentsHandler]
    split
    · simp [emailsLower, hu, ha, hc, hn]
    split
    · simp [emailsLower, hu, ha, hc, hn]
    · cases mail <;>
        simp [emailsLower, hu, ha, hc, hn, isLowerStr_toLowerCase]
  | contact mail now r =>
    simp only [step, contactHandler]
    split
    · simp [emailsLower, hu, ha, hc, hn]
    split
    · simp [emailsLower, hu, ha, hc, hn]
    · cases mail <;>
        simp [emailsLower, hu, ha, hc, hn, isLowerStr_toLowerCase]
  | newsletter now e =>
    simp only [step, newsletterHandler]
    split
    · simp [emailsLower, hu, ha, hc, hn]
    split
    · simp [emailsLower, hu, ha, hc, hn]
    split
    · simp [emailsLower, hu, ha, hc, hn]
    · simp [emailsLower, hu, ha, hc, hn, isLowerStr_toLowerCase]
  | adminStats =>
    simp [step, adminStatsHandler, emailsLower, hu, ha, hc, hn]

/-- Claim C1, counterexample: the fail-closed outcome is not uniform. With the
same failing verifier, a missing Authorization header is rejected with
status 401 and body error Access token required, while a present token whose
signature check fails is rejected with status 403 and body error Invalid
token, so the two responses differ. -/
theorem c1_counterexample :
    authenticateToken (fun _ => Except.error JwtError.badSignature) none ≠
      authenticateToken (fun _ => Except.error JwtError.badSignature)
        (some "Bearer deadbeef") := by
  decide

/-- Claim C1, as amended: verification fails closed in two tiers. Whenever no
bearer token can be extracted the middleware answers 401 Access token
required; whenever a token is extracted and verification fails, the answer is
403 Invalid token, identical for a malformed token, a bad signature and an
expired token, so within that tier no detail of which check failed leaks. -/
theorem c1_amended (verify : String → Except JwtError Nat) (h : Option String) :
    (extractToken h = none →
        authenticateToken verify h = .denied 401 "Access token required") ∧
    (∀ t e, extractToken h = some t → verify t = .error e →
        authenticateToken verify h = .denied 403 "Invalid token") := by
  constructor
  · intro he
    simp [authenticateToken, he]
  · intro t e ht hv
    simp [authenticateToken, ht, hv]

/-- Claim C1, witness: both tiers of the amended statement at concrete
inputs. -/
theorem c1_amended_witness :
    authenticateToken (fun _ => Except.error JwtError.expired) none =
        .denied 401 "Access token required" ∧
    authenticateToken (fun _ => Except.error JwtError.expired)
        (some "Bearer x") = .denied 403 "Invalid token" :=
  ⟨(c1_amended (fun _ => Except.error JwtError.expired) none).1 (by decide),
   (c1_amended (fun _ => Except.error JwtError.expired) (some "Bearer x")).2
      "x" JwtError.expired (by decide) rfl⟩

/-- Claim C2, counterexample: a sendMail throw does change the response. For a
valid booking and a valid contact request, when the transport throws the
handlers answer 500 with an error body instead of the success message. -/
theorem c2_counterexample :
    (appointmentsHandler .threw 1000 emptyState
        ⟨some "Jane", some "Doe", some "jane@example.com", some "5551234",
          some "Massage", some "2025-01-01", some "10:00", none⟩).1 =
      ⟨500, .error "Failed to book appointment"⟩ ∧
    (contactHandler .threw 1000 emptyState
        ⟨some "Jane", some "jane@example.com", some "hello"⟩).1 =
      ⟨500, .error "Failed to send message"⟩ := by
  decide

/-- Claim C2, as amended: for every valid booking or contact request the
success response is returned when no transport is configured or sendMail
resolves, but when sendMail throws the handler answers 500; in every case the
record has already been appended to the store. -/
theorem c2_amended (mail : MailOutcome) (now : Nat) (s : State) (r : ApptReq)
    (c : ContactReq) (hr : apptValid r = true) (hc : contactValid c = true) :
    ((mail ≠ .threw →
        (appointmentsHandler mail now s r).1 =
          ⟨200, .message "Appointment booked successfully! Check your email for confirmation."⟩ ∧
        (contactHandler mail now s c).1 =
          ⟨200, .message "Message sent successfully! We\x27ll get back to you soon."⟩) ∧
      (mail = .threw →
        (appointmentsHandler mail now s r).1 =
          ⟨500, .error "Failed to book appointment"⟩ ∧
        (contactHandler mail now s c).1 =
          ⟨500, .error "Failed to send message"⟩)) ∧
    (appointmentsHandler mail now s r).2.appointments.length =
      s.appointments.length + 1 ∧
    (contactHandler mail now s c).2.contacts.length = s.contacts.length + 1 := by
  simp only [apptValid, contactValid, Bool.and_eq_true] at hr hc
  cases mail <;>
    simp [appointmentsHandler, contactHandler, hr.1, hr.2, hc.1, hc.2]

/-- Claim C2, witness: the amended statement at a concrete valid booking and
contact request with a resolving transport. -/
theorem c2_amended_witness :
    ((MailOutcome.sent ≠ MailOutcome.threw →
        (appointmentsHandler .sent 1000 emptyState
            ⟨some "Jane", some "Doe", some "jane@example.com", some "5551234",
              some "Massage", some "2025-01-01", some "10:00", none⟩).1 =
          ⟨200, .message "Appointment booked successfully! Check your email for confirmation."⟩ ∧
        (contactHandler .sent 1000 emptyState
            ⟨some "Jane", some "jane@example.com", some "hello"⟩).1 =
          ⟨200, .message "Message sent successfully! We\x27ll get back to you soon."⟩) ∧
      (MailOutcome.sent = MailOutcome.threw →
        (appointmentsHandler .sent 1000 emptyState
            ⟨some "Jane", some "Doe", some "jane@example.com", some "5551234",
              some "Massage", some "2025-01-01", some "10:00", none⟩).1 =
          ⟨500, .error "Failed to book appointment"⟩ ∧
        (contactHandler .sent 1000 emptyState
            ⟨some "Jane", some "jane@example.com", some "hello"⟩).1 =
          ⟨500, .error "Failed to send message"⟩)) ∧
    (appointmentsHandler .sent 1000 emptyState
        ⟨some "Jane", some "Doe", some "jane@example.com", some "5551234",
          some "Massage", some "2025-01-01", some "10:00",
          none⟩).2.appointments.length =
      emptyState.appointments.length + 1 ∧
    (contactHandler .sent 1000 emptyState
        ⟨some "Jane", some "jane@example.com", some "hello"⟩).2.contacts.length =
      emptyState.contacts.length + 1 :=
  c2_amended .sent 1000 emptyState
    ⟨some "Jane", some "Doe", some "jane@example.com", some "5551234",
      some "Massage", some "2025-01-01", some "10:00", none⟩
    ⟨some "Jane", some "jane@example.com", some "hello"⟩ (by decide) (by decide)

/-- Claim C3, counterexample: ids are not unique. Two distinct appointment
records appended through the handler with the same Date.now() value 1000 both
receive id 1000. -/
theorem c3_counterexample :
    ((run refHasher emptyState
        [ .appointment .noTransporter 1000
            ⟨some "Alice", some "Smith", some "alice@example.com", some "111",
              some "Yoga", some "2025-01-01", some "09:00", none⟩,
          .appointment .noTransporter 1000
            ⟨some "Bob", some "Jones", some "bob@example.com", some "222",
              some "Spa", some "2025-01-02", some "10:00", none⟩ ]).appointments.map
        (fun a => (a.firstName, a.id))) = [("Alice", 1000), ("Bob", 1000)] := by
  decide

/-- Claim C3, as amended: every record appended to the appointment and contact
stores is assigned an id equal to the current Date.now() value together with a
creation timestamp set at insertion time; ids are monotonically non-decreasing
across successive appends when the clock is non-decreasing, but they are not
unique: records appended at the same clock value share an id (and newsletter
records carry no id at all). -/
theorem c3_amended (mail : MailOutcome) (now now' : Nat) (s : State)
    (r r' : ApptReq) (c : ContactReq) (hr : apptValid r = true)
    (hr' : apptValid r' = true) (hc : contactValid c = true)
    (hle : now ≤ now') :
    (∃ a, (appointmentsHandler mail now s r).2.appointments =
        s.appointments ++ [a] ∧ a.id = now ∧ a.createdAt = now) ∧
    (∃ k, (contactHandler mail now s c).2.contacts = s.contacts ++ [k] ∧
        k.id = now ∧ k.createdAt = now) ∧
    (∃ a a', (appointmentsHandler mail now'
          ((appointmentsHandler mail now s r).2) r').2.appointments =
        s.appointments ++ [a, a'] ∧ a.id ≤ a'.id) := by
  simp only [apptValid, contactValid, Bool.and_eq_true] at hr hr' hc
  refine ⟨⟨⟨now, r.firstName.getD "", r.lastName.getD "",
      toLowerCase (r.email.getD ""), r.phone.getD "", r.service.getD "",
      r.date.getD "", r.time.getD "", r.message.getD "", now⟩, ?_, rfl, rfl⟩,
    ⟨⟨now, jsTrim (c.name.getD ""), toLowerCase (c.email.getD ""),
      jsTrim (c.message.getD ""), now⟩, ?_, rfl, rfl⟩,
    ⟨⟨now, r.firstName.getD "", r.lastName.getD "",
      toLowerCase (r.email.getD ""), r.phone.getD "", r.service.getD "",
      r.date.getD "", r.time.getD "", r.message.getD "", now⟩,
     ⟨now', r'.firstName.getD "", r'.lastName.getD "",
      toLowerCase (r'.email.getD ""), r'.phone.getD "", r'.service.getD "",
      r'.date.getD "", r'.time.getD "", r'.message.getD "", now'⟩, ?_, hle⟩⟩
  · cases mail <;> simp [appointmentsHandler, hr.1, hr.2]
  · cases mail <;> simp [contactHandler, hc.1, hc.2]
  · cases mail <;> simp [appointmentsHandler, hr.1, hr.2, hr'.1, hr'.2]

/-- Claim C3, witness: the amended statement at concrete requests with clock
values 1000 and 1001. -/
theorem c3_amended_witness :
    (∃ a, (appointmentsHandler .sent 1000 emptyState
        ⟨some "Alice", some "Smith", some "alice@example.com", some "111",
          some "Yoga", some "2025-01-01", some "09:00", none⟩).2.appointments =
        emptyState.appointments ++ [a] ∧ a.id = 1000 ∧ a.createdAt = 1000) ∧
    (∃ k, (contactHandler .sent 1000 emptyState
        ⟨some "Jane", some "jane@example.com", some "hello"⟩).2.contacts =
        emptyState.contacts ++ [k] ∧ k.id = 1000 ∧ k.createdAt = 1000) ∧
    (∃ a a', (appointmentsHandler .sent 1001
        ((appointmentsHandler .sent 1000 emptyState
            ⟨some "Alice", some "Smith", some "alice@example.com", some "111",
              some "Yoga", some "2025-01-01", some "09:00", none⟩).2)
        ⟨some "Bob", some "Jones", some "bob@example.com", some "222",
          some "Spa", some "2025-01-02", some "10:00", none⟩).2.appointments =
        emptyState.appointments ++ [a, a'] ∧ a.id ≤ a'.id) :=
  c3_amended .sent 1000 1001 emptyState
    ⟨some "Alice", some "Smith", some "alice@example.com", some "111",
      some "Yoga", some "2025-01-01", some "09:00", none⟩
    ⟨some "Bob", some "Jones", some "bob@example.com", some "222",
      some "Spa", some "2025-01-02", some "10:00", none⟩
    ⟨some "Jane", some "jane@example.com", some "hello"⟩
    (by decide) (by decide) (by decide) (by omega)

/-- Claim C4: every appointment request that fails validation (a missing or
falsy required field, or a malformed email) gets a 400 response with an error
body, and the state, in particular the appointment store, is exactly as it
was before the request. -/
theorem c4_validation_no_mutation (mail : MailOutcome) (now : Nat) (s : State)
    (r : ApptReq) (h : apptValid r = false) :
    (appointmentsHandler mail now s r).2 = s ∧
    (appointmentsHandler mail now s r).1.status = 400 ∧
    ∃ msg, (appointmentsHandler mail now s r).1.body = .error msg := by
  cases hreq : requiredApptPresent r with
  | false => simp [appointmentsHandler, hreq]
  | true =>
    have hv : validateEmail (r.email.getD "") = false := by
      cases hv : validateEmail (r.email.getD "") with
      | false => rfl
      | true => rw [apptValid, hreq, hv] at h; cases h
    simp [appointmentsHandler, hreq, hv]

/-- Claim C4, witness: the malformed email not-an-email of the spec is
rejected with 400 and no mutation. -/
theorem c4_witness :
    (appointmentsHandler .noTransporter 1000 emptyState
        ⟨some "Jane", some "Doe", some "not-an-email", some "5551234",
          some "Massage", some "2025-01-01", some "10:00", none⟩).2 =
      emptyState ∧
    (appointmentsHandler .noTransporter 1000 emptyState
        ⟨some "Jane", some "Doe", some "not-an-email", some "5551234",
          some "Massage", some "2025-01-01", some "10:00", none⟩).1.status =
      400 ∧
    ∃ msg, (appointmentsHandler .noTransporter 1000 emptyState
        ⟨some "Jane", some "Doe", some "not-an-email", some "5551234",
          some "Massage", some "2025-01-01", some "10:00", none⟩).1.body =
      .error msg :=
  c4_validation_no_mutation .noTransporter 1000 emptyState
    ⟨some "Jane", some "Doe", some "not-an-email", some "5551234",
      some "Massage", some "2025-01-01", some "10:00", none⟩ (by decide)

/-- Claim C5: registering a valid email and password from a state where the
lowercased email is not yet stored succeeds, and a second registration whose
email lowercases to the same string, so in particular one differing only in
letter case, is rejected with the 400 duplicate-email conflict. -/
theorem c5_duplicate_register (hasher : Hasher) (now now' : Nat) (s : State)
    (e p e' p' : String) (hv : validateEmail e = true)
    (hp : validatePassword p = true) (hv' : validateEmail e' = true)
    (hp' : validatePassword p' = true)
    (hcase : toLowerCase e = toLowerCase e')
    (hfresh : (s.users.find? (fun u => u.email == toLowerCase e)).isSome =
      false) :
    (registerHandler hasher now s (some e) (some p)).1 =
      ⟨200, .message "User registered successfully"⟩ ∧
    (registerHandler hasher now'
        ((registerHandler hasher now s (some e) (some p)).2)
        (some e') (some p')).1 = ⟨400, .error "User already exists"⟩ := by
  have he : (e != "") = true := by
    rw [bne_iff_ne]
    intro h
    rw [h] at hv
    exact absurd hv (by decide)
  have he' : (e' != "") = true := by
    rw [bne_iff_ne]
    intro h
    rw [h] at hv'
    exact absurd hv' (by decide)
  have hp0 : (p != "") = true := by
    have := hp
    simp only [validatePassword, Bool.and_eq_true] at this
    exact this.1
  have hp0' : (p' != "") = true := by
    have := hp'
    simp only [validatePassword, Bool.and_eq_true] at this
    exact this.1
  have hstep1 : registerHandler hasher now s (some e) (some p) =
      (⟨200, .message "User registered successfully"⟩,
        { s with users :=
            s.users ++ [⟨now, toLowerCase e, hasher.hash p, some now⟩] }) := by
    simp [registerHandler, truthy, he, hp0, hv, hp, hfresh]
  constructor
  · rw [hstep1]
  · rw [hstep1]
    simp [registerHandler, truthy, he', hp0', hv', hp', hcase]

/-- Claim C5, witness: registering New at Example.com then the same address in
different letter case yields success then the duplicate-email conflict. -/
theorem c5_witness :
    (registerHandler refHasher 1000 emptyState (some "New@Example.com")
        (some "secret1")).1 = ⟨200, .message "User registered successfully"⟩ ∧
    (registerHandler refHasher 1001
        ((registerHandler refHasher 1000 emptyState (some "New@Example.com")
            (some "secret1")).2)
        (some "new@EXAMPLE.com") (some "other99")).1 =
      ⟨400, .error "User already exists"⟩ :=
  c5_duplicate_register refHasher 1000 1001 emptyState "New@Example.com"
    "secret1" "new@EXAMPLE.com" "other99" (by decide) (by decide) (by decide)
    (by decide) (by decide) (by decide)

/-- Claim C6: every login that passes the field and format checks but fails
authentication, whether the email is not registered (lookup finds no user) or
the password comparison fails for the found user, gets the one identical
response: status 401 with body error Invalid credentials. -/
theorem c6_login_indistinguishable (hasher : Hasher) (now : Nat) (s : State)
    (email password : Option String) (ht : truthy email = true)
    (hp : truthy password = true)
    (hv : validateEmail (email.getD "") = true)
    (hfail : match s.users.find?
        (fun u => u.email == toLowerCase (email.getD "")) with
      | none => True
      | some u => hasher.compare (password.getD "") u.password = false) :
    (loginHandler hasher now s email password).1 =
      ⟨401, .error "Invalid credentials"⟩ := by
  cases hfind : s.users.find?
      (fun u => u.email == toLowerCase (email.getD "")) with
  | none => simp [loginHandler, ht, hp, hv, hfind]
  | some u =>
    rw [hfind] at hfail
    simp [loginHandler, ht, hp, hv, hfind, hfail]

/-- Claim C6, witness: an unregistered email and a wrong password for the
seeded test user produce the same 401 response. -/
theorem c6_witness :
    (loginHandler refHasher 0 (initialState refHasher) (some "no@one.com")
        (some "x")).1 = ⟨401, .error "Invalid credentials"⟩ ∧
    (loginHandler refHasher 0 (initialState refHasher)
        (some "test@wellnesshub.com") (some "wrongpass")).1 =
      ⟨401, .error "Invalid credentials"⟩ :=
  ⟨c6_login_indistinguishable refHasher 0 (initialState refHasher)
      (some "no@one.com") (some "x") (by decide) (by decide) (by decide)
      trivial,
   c6_login_indistinguishable refHasher 0 (initialState refHasher)
      (some "test@wellnesshub.com") (some "wrongpass") (by decide) (by decide)
      (by decide)
      (by decide : refHasher.compare "wrongpass" "hashed:password123" = false)⟩

/-- Claim C7: starting from the seeded startup state, after any sequence of
requests every email field stored in the user, appointment, contact and
newsletter stores is lowercase, because every storing or comparing operation
first normalizes the email with toLowerCase. -/
theorem c7_emails_lowercase (hasher : Hasher) (reqs : List Request) :
    emailsLower (run hasher (initialState hasher) reqs) = true := by
  suffices h : ∀ s, emailsLower s = true →
      emailsLower (run hasher s reqs) = true by
    exact h _ (emailsLower_initial hasher)
  induction reqs with
  | nil => exact fun s hs => hs
  | cons r rs ih =>
    intro s hs
    exact ih _ (emailsLower_step hasher s r hs)

/-- Claim C8: for every state the admin stats handler leaves every store
untouched and answers 200 with exactly the four store sizes and the last five
appointments and contacts; the recent lists are suffixes of the stores, so
they are in insertion order, of length five or the whole store when
shorter. -/
theorem c8_admin_stats (s : State) :
    (adminStatsHandler s).2 = s ∧
    (adminStatsHandler s).1.status = 200 ∧
    (adminStatsHandler s).1.body =
      .stats s.users.length s.appointments.length s.contacts.length
        s.newsletters.length (sliceLast 5 s.appointments)
        (sliceLast 5 s.contacts) ∧
    (sliceLast 5 s.appointments).length = min 5 s.appointments.length ∧
    s.appointments.take (s.appointments.length - 5) ++
        sliceLast 5 s.appointments = s.appointments ∧
    (sliceLast 5 s.contacts).length = min 5 s.contacts.length ∧
    s.contacts.take (s.contacts.length - 5) ++ sliceLast 5 s.contacts =
      s.contacts := by
  refine ⟨rfl, rfl, rfl, ?_, ?_, ?_, ?_⟩
  · simp [sliceLast]
    omega
  · simp [sliceLast]
  · simp [sliceLast]
    omega
  · simp [sliceLast]

/-- Claim C9: when registration answers the duplicate-email conflict or the
newsletter subscription answers the already-subscribed conflict, the handler
returns before any push, so the state is exactly the state before the
request. -/
theorem c9_conflict_no_mutation (hasher : Hasher) (now now' : Nat)
    (s s' : State) (e p n : Option String)
    (hreg : (registerHandler hasher now s e p).1.body =
      .error "User already exists")
    (hnews : (newsletterHandler now' s' n).1.body =
      .error "Email already subscribed") :
    (registerHandler hasher now s e p).2 = s ∧
      (newsletterHandler now' s' n).2 = s' := by
  constructor
  · rcases registerHandler_state hasher now s e p with h | h
    · exact h
    · rw [h] at hreg
      cases hreg
  · rcases newsletterHandler_state now' s' n with h | h
    · exact h
    · rw [h] at hnews
      cases hnews

/-- Claim C9, witness: a duplicate registration of the seeded test account and
a duplicate newsletter subscription in different letter case both leave their
states unchanged. -/
theorem c9_witness :
    (registerHandler refHasher 1000 (initialState refHasher)
        (some "Test@WellnessHub.com") (some "password123")).2 =
      initialState refHasher ∧
    (newsletterHandler 1000 ⟨[], [], [], [⟨"a@b.cd", 5⟩]⟩
        (some "A@B.cd")).2 = ⟨[], [], [], [⟨"a@b.cd", 5⟩]⟩ :=
  c9_conflict_no_mutation refHasher 1000 1000 (initialState refHasher)
    ⟨[], [], [], [⟨"a@b.cd", 5⟩]⟩ (some "Test@WellnessHub.com")
    (some "password123") (some "A@B.cd") (by decide) (by decide)

/-- Claim C10: every valid appointment request stores a record whose message
field is a plain string: it equals the supplied message, and when the request
omits the message or supplies the falsy empty string, the stored message is
the empty string. -/
theorem c10_message_default (mail : MailOutcome) (now : Nat) (s : State)
    (r : ApptReq) (h : apptValid r = true) :
    ∃ a, (appointmentsHandler mail now s r).2.appointments =
        s.appointments ++ [a] ∧
      a.message = r.message.getD "" ∧
      ((r.message = none ∨ r.message = some "") → a.message = "") := by
  simp only [apptValid, Bool.and_eq_true] at h
  refine ⟨⟨now, r.firstName.getD "", r.lastName.getD "",
      toLowerCase (r.email.getD ""), r.phone.getD "", r.service.getD "",
      r.date.getD "", r.time.getD "", r.message.getD "", now⟩, ?_, rfl, ?_⟩
  · cases mail <;> simp [appointmentsHandler, h.1, h.2]
  · rintro (hm | hm) <;> simp [hm]

/-- Claim C10, witness: a valid request with no message field stores the empty
string. -/
theorem c10_witness :
    ∃ a, (appointmentsHandler .noTransporter 1000 emptyState
        ⟨some "Jane", some "Doe", some "jane@example.com", some "5551234",
          some "Massage", some "2025-01-01", some "10:00",
          none⟩).2.appointments =
        emptyState.appointments ++ [a] ∧
      a.message = (none : Option String).getD "" ∧
      (((none : Option String) = none ∨ (none : Option String) = some "") →
        a.message = "") :=
  c10_message_default .noTransporter 1000 emptyState
    ⟨some "Jane", some "Doe", some "jane@example.com", some "5551234",
      some "Massage", some "2025-01-01", some "10:00", none⟩ (by decide)

end WellnessHub
